import Mathlib

/-!
# Verification of the Commit action of fabric-sdk-node (fabric-common)

Shallow embedding of `fabric-common/lib/Commit.js` (class `Commit extends
Proposal`): the `build` method, which assembles a transaction envelope
payload from an endorsement record, and the `send` method, which broadcasts
the signed envelope to committer targets with a fallback policy.

Modelling conventions:
* JS byte buffers are modelled by the inductive type `FBytes`.  Protobuf
  serialization (`toBuffer`) is modelled by injective constructors
  (`encCPP`, `encCAP`, `encTx`, `encPayload`); `decode` inverts them.
  The wire format itself is an externally fixed schema out of scope here,
  so only the message structure is modelled, not the octet layout.
* A JS value that may be `undefined`/`null` is an `Option`.
  Note that in JS an *empty array is truthy*, so the source test
  `!this._endorsement._proposalResponses` corresponds to the `Option`
  being `none`, never to the list being `[]`.
* JS `throw` is `Except.error`; the distinct error messages thrown by the
  source are the constructors of `FabricError`.
* Stateful methods take and return an explicit `CommitState`.
* A committer's `sendBroadcast` is called at most once per `send`, so each
  committer is modelled by the single outcome that call produces: either a
  returned result (`Except.ok`) or a raised transport error
  (`Except.error`).
-/

/-- Raw bytes. -/
abbrev RawBytes := List Nat

/-- `protos.ChaincodeProposalPayload`: the payload of the original proposal,
with an `input` field and a `transientMap` field (the latter is the
transient/private data that must not reach the committer). -/
structure ChaincodeProposalPayload where
  input : Option RawBytes
  transientMap : Option (List (String × RawBytes))
deriving DecidableEq, Repr

/-- `common.Header` of the original proposal: channel header and signature
header bytes (`getSignatureHeader()` returns the latter). -/
structure HeaderMsg where
  channelHeader : RawBytes
  signatureHeader : RawBytes
deriving DecidableEq, Repr

mutual

/-- Byte buffers as they flow through `Commit.build`: either raw bytes or
the serialization (`toBuffer()`) of one of the protobuf messages built by
the source.  The constructors are injective, modelling that serialization
is invertible on well-formed buffers. -/
inductive FBytes where
  | raw : RawBytes → FBytes
  | encCPP : ChaincodeProposalPayload → FBytes
  | encCAP : ChaincodeActionPayload → FBytes
  | encTx : TransactionMsg → FBytes
  | encPayload : PayloadMsg → FBytes

/-- `protos.ChaincodeEndorsedAction`: proposal-response-payload bytes plus
the list of endorsement signature blobs. -/
inductive ChaincodeEndorsedAction where
  | mk : (proposalResponsePayload : FBytes) →
         (endorsements : List RawBytes) → ChaincodeEndorsedAction

/-- `protos.ChaincodeActionPayload`: the endorsed action plus the
(serialized) trimmed chaincode proposal payload. -/
inductive ChaincodeActionPayload where
  | mk : (action : ChaincodeEndorsedAction) →
         (chaincodeProposalPayload : FBytes) → ChaincodeActionPayload

/-- `protos.TransactionAction`: signature-header bytes plus the
(serialized) chaincode action payload. -/
inductive TransactionAction where
  | mk : (header : FBytes) → (payload : FBytes) → TransactionAction

/-- `protos.Transaction`: a list of transaction actions. -/
inductive TransactionMsg where
  | mk : (actions : List TransactionAction) → TransactionMsg

/-- `common.Payload`: the original proposal header plus the (serialized)
transaction. -/
inductive PayloadMsg where
  | mk : (header : HeaderMsg) → (data : FBytes) → PayloadMsg

end

/-- `protos.ChaincodeProposalPayload.decode`: inverts serialization; any
other buffer fails to decode (the JS decoder throws on garbage). -/
def ChaincodeProposalPayload.decode : FBytes → Option ChaincodeProposalPayload
  | FBytes.encCPP p => some p
  | _ => none

/-- The inner `response` object of a proposal response (`{status, ...}`). -/
structure ResponseInner where
  status : Nat
  message : String
deriving DecidableEq, Repr

/-- One collected proposal response of an endorsement record.  `response`
is `none` when the entry has no `response` object (e.g. the endorser call
failed and an error object was collected instead). -/
structure ProposalResponse where
  response : Option ResponseInner
  payload : FBytes
  endorsement : RawBytes

/-- The proposal-build metadata kept on the endorsement
(`this._endorsement._action`): the original proposal header and the
original proposal's payload bytes (`proposal.getPayload()`). -/
structure EndorsementAction where
  header : HeaderMsg
  proposalPayload : FBytes

/-- The endorsement record handed to `Commit.build`.
`proposalResponses = none` models `_proposalResponses` being
`undefined`/`null` (proposal never endorsed); `some []` models a present
but empty response array, which is truthy in JS. -/
structure EndorsementRec where
  proposalResponses : Option (List ProposalResponse)
  action : EndorsementAction

/-- The distinct failures raised by the source. -/
inductive FabricError where
  /-- `checkParameter(name)`: `Error('Missing <name> parameter')`. -/
  | missingParameter (name : String)
  /-- `Error('Proposal has not been endorsed')`. -/
  | notEndorsed
  /-- `Error('No valid endorsements found')`. -/
  | noValidEndorsements
  /-- protobuf `decode` threw on a malformed buffer. -/
  | decodeFailure
  /-- lifecycle precondition violated (e.g. `getSignedEnvelope` before
  `sign`). -/
  | precondition (msg : String)
  /-- an uncaught transport error raised by a committer's
  `sendBroadcast`. -/
  | transport (msg : String)
deriving DecidableEq, Repr

/-- The mutable state of a `Commit` action instance: the resolved
endorsement record, the accumulated payload bytes (`this._payload`) and the
signature (`this._signature`, present only after `sign`). -/
structure CommitState where
  endorsement : Option EndorsementRec
  payload : Option FBytes
  signature : Option RawBytes

/-- The test of the source's endorsement filter loop:
`proposalResponse.response && proposalResponse.response.status === 200`. -/
def validResponse (r : ProposalResponse) : Bool :=
  match r.response with
  | some resp => resp.status == 200
  | none => false

/-- Modelled from the spec: `_reset` (defined on the `ServiceAction` base
class, not under `src/`) clears the accumulated state at the start of each
`build` — "Each `build` call resets prior accumulated state"; the
accumulated payload and the signed envelope (payload + signature) are
discarded. -/
def CommitState.reset (st : CommitState) : CommitState :=
  { st with payload := none, signature := none }

/-- `Commit.build(idContext, request)` from `fabric-common/lib/Commit.js`.
Returns the payload bytes (or the raised error) together with the state of
the action after the call. -/
def Commit.build (st : CommitState) (requestEndorsement : Option EndorsementRec) :
    Except FabricError FBytes × CommitState :=
  -- if (request.endorsement) { this._endorsement = request.endorsement; }
  let st := match requestEndorsement with
    | some e => { st with endorsement := some e }
    | none => st
  match st.endorsement with
  -- if (!this._endorsement) { checkParameter('endorsement'); }
  | none => (Except.error (FabricError.missingParameter "endorsement"), st)
  | some e =>
    match e.proposalResponses with
    -- if (!this._endorsement._proposalResponses) { throw Error('Proposal has not been endorsed'); }
    -- (an empty array is truthy in JS, so only an absent array takes this branch)
    | none => (Except.error FabricError.notEndorsed, st)
    | some responses =>
      -- this._reset();
      let st := st.reset
      -- the filter loop: push r.endorsement for every r with r.response.status === 200
      let endorsements := (responses.filter validResponse).map ProposalResponse.endorsement
      -- if (endorsements.length < 1) { throw new Error('No valid endorsements found'); }
      if endorsements.isEmpty then
        (Except.error FabricError.noValidEndorsements, st)
      else
        match responses with
        | [] =>
          -- unreachable: a non-empty filtered list forces a non-empty source list
          (Except.error FabricError.noValidEndorsements, st)
        | first :: _ =>
          -- const proposalResponse = this._endorsement._proposalResponses[0];
          match ChaincodeProposalPayload.decode e.action.proposalPayload with
          | none => (Except.error FabricError.decodeFailure, st)
          | some originalChaincodeProposalPayload =>
            -- chaincodeEndorsedAction: first response payload + filtered endorsements
            let chaincodeEndorsedAction :=
              ChaincodeEndorsedAction.mk first.payload endorsements
            -- chaincodeProposalPayloadNoTrans: only the input field is copied
            let chaincodeProposalPayloadNoTrans : ChaincodeProposalPayload :=
              { input := originalChaincodeProposalPayload.input, transientMap := none }
            -- chaincodeActionPayload: action + trimmed proposal payload bytes
            let chaincodeActionPayload :=
              ChaincodeActionPayload.mk chaincodeEndorsedAction
                (FBytes.encCPP chaincodeProposalPayloadNoTrans)
            -- transactionAction: header.getSignatureHeader() + chaincodeActionPayload.toBuffer()
            let transactionAction :=
              TransactionAction.mk (FBytes.raw e.action.header.signatureHeader)
                (FBytes.encCAP chaincodeActionPayload)
            -- transaction: single-element action list
            let transaction := TransactionMsg.mk [transactionAction]
            -- payload: original header + transaction.toBuffer()
            let payloadMsg := PayloadMsg.mk e.action.header (FBytes.encTx transaction)
            -- this._payload = this._action.payload.toBuffer();
            let payloadBytes := FBytes.encPayload payloadMsg
            (Except.ok payloadBytes, { st with payload := some payloadBytes })

/-- A broadcast outcome `{status, message}` as returned by a committer's
`sendBroadcast`, or as synthesized by `send` itself (the initial
`bad_result = {}` with only `status = 'UNKNOWN'` has no message). -/
structure BroadcastResult where
  status : String
  message : Option String
deriving DecidableEq, Repr

/-- A committer target, modelled by the outcome of the single
`sendBroadcast` call `send` makes against it: a returned result, or a
raised transport error. -/
structure Committer where
  sendBroadcast : Except String BroadcastResult

/-- A commit-delivery handler, modelled by the result its `commit` method
returns for the one call `send` makes. -/
structure CommitHandler where
  commitResult : BroadcastResult
deriving DecidableEq, Repr

/-- The `send` request object `{handler, targets, requestTimeout}`. -/
structure SendRequest where
  handler : Option CommitHandler
  targets : Option (List Committer)

/-- Modelled from the spec: `channel.getTargetCommitters` (defined on
`Channel`, not under `src/`) resolves caller-supplied target identifiers to
committer capabilities; targets are modelled as already-resolved handles,
so resolution is the identity. -/
def getTargetCommitters (targets : List Committer) : List Committer := targets

/-- Modelled from the spec: `getSignedEnvelope` (defined on the
`ServiceAction` base class, not under `src/`) requires a built payload and
a signature — "`send` requires a non-empty signed envelope", "fails with
`PreconditionError`" otherwise — and returns the envelope bytes derived
from both. -/
def CommitState.getSignedEnvelope (st : CommitState) :
    Except FabricError (FBytes × RawBytes) :=
  match st.payload, st.signature with
  | some p, some s => Except.ok (p, s)
  | _, _ => Except.error (FabricError.precondition "sign the envelope before sending")

/-- The broadcast loop of `Commit.send`: try each committer in order,
return the first `SUCCESS` result, otherwise keep the last result as
`bad_result`.  Also returns the list of committers actually contacted, in
contact order.  A raised transport error propagates (the source has no
`try`/`catch` around `sendBroadcast`). -/
def sendLoop : List Committer → BroadcastResult →
    Except FabricError BroadcastResult × List Committer
  | [], bad_result => (Except.ok bad_result, [])
  | committer :: rest, _bad_result =>
    match committer.sendBroadcast with
    | Except.error e => (Except.error (FabricError.transport e), [committer])
    | Except.ok result =>
      if result.status = "SUCCESS" then
        (Except.ok result, [committer])
      else
        let out := sendLoop rest result
        (out.1, committer :: out.2)

/-- `Commit.send(request)` from `fabric-common/lib/Commit.js`.  Returns the
outcome (or the raised error) together with the list of committers
contacted, in contact order (empty when the network is never contacted). -/
def Commit.send (st : CommitState) (request : SendRequest) :
    Except FabricError BroadcastResult × List Committer :=
  -- const envelope = this.getSignedEnvelope();
  match st.getSignedEnvelope with
  | Except.error e => (Except.error e, [])
  | Except.ok _envelope =>
    match request.handler with
    -- if (handler) { return await handler.commit(envelope, request); }
    | some handler => (Except.ok handler.commitResult, [])
    | none =>
      match request.targets with
      | some targets =>
        -- const committers = this.channel.getTargetCommitters(targets);
        let committers := getTargetCommitters targets
        -- let bad_result = {}; bad_result.status = 'UNKNOWN';
        sendLoop committers { status := "UNKNOWN", message := none }
      | none =>
        -- throw Error('Missing targets parameter');
        (Except.error (FabricError.missingParameter "targets"), [])

/-! ## Derived forms and helper lemmas -/

/-- The endorsement list `Commit.build` collects: the endorsement blobs of
the responses passing `validResponse`, in arrival order. -/
def endorsementsOf (l : List ProposalResponse) : List RawBytes :=
  (l.filter validResponse).map ProposalResponse.endorsement

/-- The payload bytes `Commit.build` assembles from the record `e`, the
first collected response `first`, the filtered endorsement list and the
decoded original proposal payload `orig`. -/
def assembledPayload (e : EndorsementRec) (first : ProposalResponse)
    (endorsements : List RawBytes) (orig : ChaincodeProposalPayload) : FBytes :=
  FBytes.encPayload (PayloadMsg.mk e.action.header (FBytes.encTx (TransactionMsg.mk
    [TransactionAction.mk (FBytes.raw e.action.header.signatureHeader)
      (FBytes.encCAP (ChaincodeActionPayload.mk
        (ChaincodeEndorsedAction.mk first.payload endorsements)
        (FBytes.encCPP { input := orig.input, transientMap := none })))])))

/-- Supplying the endorsement record in the request is the same as having
it stored on the action beforehand. -/
theorem Commit.build_resolve (st : CommitState) (e : EndorsementRec) :
    Commit.build st (some e) = Commit.build { st with endorsement := some e } none := rfl

/-- `build` on a record whose response collection is absent
(`_proposalResponses` undefined): `Error('Proposal has not been endorsed')`,
state untouched. -/
theorem Commit.build_no_responses (st : CommitState) (e : EndorsementRec)
    (hst : st.endorsement = some e) (h : e.proposalResponses = none) :
    Commit.build st none = (Except.error FabricError.notEndorsed, st) := by
  simp [Commit.build, hst, h]

/-- `build` on a record with a present response collection none of whose
entries passes the status-200 filter: `Error('No valid endorsements
found')`, state reset. -/
theorem Commit.build_no_valid (st : CommitState) (e : EndorsementRec)
    (l : List ProposalResponse) (hst : st.endorsement = some e)
    (hl : e.proposalResponses = some l)
    (hall : ∀ r ∈ l, validResponse r = false) :
    Commit.build st none = (Except.error FabricError.noValidEndorsements, st.reset) := by
  have hfil : l.filter validResponse = [] := by
    rw [List.filter_eq_nil_iff]
    intro a ha
    simp [hall a ha]
  cases l with
  | nil => simp [Commit.build, hst, hl, CommitState.reset]
  | cons first rest => simp [Commit.build, hst, hl, hfil, CommitState.reset]

/-- `build` on a record with at least one valid response and a decodable
original proposal payload: assembles the payload and stores it. -/
theorem Commit.build_valid (st : CommitState) (e : EndorsementRec)
    (first : ProposalResponse) (rest : List ProposalResponse)
    (orig : ChaincodeProposalPayload)
    (hst : st.endorsement = some e)
    (hl : e.proposalResponses = some (first :: rest))
    (hvalid : ∃ r, r ∈ first :: rest ∧ validResponse r = true)
    (hdec : ChaincodeProposalPayload.decode e.action.proposalPayload = some orig) :
    Commit.build st none =
      (Except.ok (assembledPayload e first (endorsementsOf (first :: rest)) orig),
       { st.reset with
          payload := some (assembledPayload e first (endorsementsOf (first :: rest)) orig) }) := by
  obtain ⟨r, hmem, hr⟩ := hvalid
  have hne : ((first :: rest).filter validResponse).map ProposalResponse.endorsement ≠ [] := by
    have : r ∈ (first :: rest).filter validResponse := List.mem_filter.mpr ⟨hmem, hr⟩
    intro hcontra
    rcases List.map_eq_nil_iff.mp hcontra with hfil
    rw [hfil] at this
    exact absurd this (List.not_mem_nil r)
  have hie : (((first :: rest).filter validResponse).map ProposalResponse.endorsement).isEmpty = false := by
    cases hq : ((first :: rest).filter validResponse).map ProposalResponse.endorsement with
    | nil => exact absurd hq hne
    | cons a as => simp
  simp [Commit.build, hst, hl, hie, hdec, assembledPayload, endorsementsOf, CommitState.reset]

/-! ## Concrete fixtures -/

/-- A sample original-proposal payload that carries transient data. -/
def sampleCPP : ChaincodeProposalPayload :=
  { input := some [9, 9], transientMap := some [("secret", [7])] }

/-- A sample original-proposal header. -/
def sampleHeader : HeaderMsg := { channelHeader := [1, 2], signatureHeader := [3, 4] }

/-- Sample proposal-build metadata: header plus encoded proposal payload. -/
def sampleAction : EndorsementAction :=
  { header := sampleHeader, proposalPayload := FBytes.encCPP sampleCPP }

/-- A collected response whose endorser accepted (status 200). -/
def resp200 : ProposalResponse :=
  { response := some { status := 200, message := "OK" },
    payload := FBytes.raw [5], endorsement := [10] }

/-- A collected response whose endorser rejected (status 500). -/
def resp500 : ProposalResponse :=
  { response := some { status := 500, message := "failed" },
    payload := FBytes.raw [6], endorsement := [11] }

/-- A commit state holding a record whose response array is present but
empty (`_proposalResponses = []`, truthy in JS). -/
def emptyResponsesState : CommitState :=
  { endorsement := some { proposalResponses := some [], action := sampleAction },
    payload := none, signature := none }

/-! ## C1 -/

/-- C1, counterexample: on an Endorsement Record whose collected-responses
sequence is present but empty (zero responses at all), `Commit.build` fails
with `NoValidEndorsementsError`, not with `NotEndorsedError` — in JS an
empty array is truthy, so `!this._endorsement._proposalResponses` does not
fire and control reaches the empty-filter check instead. -/
theorem commit_build_empty_responses_yields_noValid :
    (Commit.build emptyResponsesState none).1 =
      Except.error FabricError.noValidEndorsements ∧
    FabricError.noValidEndorsements ≠ FabricError.notEndorsed :=
  ⟨rfl, by decide⟩

/-- C1 (amended): `Commit.build` fails with `NotEndorsedError` exactly when
the record's collected-responses field is absent (never populated); a
record whose responses field is present but holds zero responses fails with
`NoValidEndorsementsError` instead. -/
theorem commit_build_notEndorsed_iff_responses_absent
    (st : CommitState) (req : Option EndorsementRec) (e : EndorsementRec)
    (hre : req = some e ∨ (req = none ∧ st.endorsement = some e)) :
    ((Commit.build st req).1 = Except.error FabricError.notEndorsed ↔
      e.proposalResponses = none) ∧
    (e.proposalResponses = some [] →
      (Commit.build st req).1 = Except.error FabricError.noValidEndorsements) := by
  have main : ∀ st' : CommitState, st'.endorsement = some e →
      ((Commit.build st' none).1 = Except.error FabricError.notEndorsed ↔
        e.proposalResponses = none) ∧
      (e.proposalResponses = some [] →
        (Commit.build st' none).1 = Except.error FabricError.noValidEndorsements) := by
    intro st' hst
    constructor
    · constructor
      · intro h
        cases hpr : e.proposalResponses with
        | none => rfl
        | some l =>
          exfalso
          cases hq : l.filter validResponse with
          | nil =>
            have hall : ∀ r ∈ l, validResponse r = false := by
              intro r hr
              have := List.filter_eq_nil_iff.mp hq r hr
              simpa using this
            rw [Commit.build_no_valid st' e l hst hpr hall] at h
            exact absurd (Except.error.inj h) (by decide)
          | cons a as =>
            have hmem : a ∈ l.filter validResponse := by rw [hq]; exact List.mem_cons_self a as
            have hval : validResponse a = true := (List.mem_filter.mp hmem).2
            have hmema : a ∈ l := (List.mem_filter.mp hmem).1
            cases l with
            | nil => exact absurd hmema (List.not_mem_nil a)
            | cons first rest =>
              cases hdec : ChaincodeProposalPayload.decode e.action.proposalPayload with
              | none =>
                -- build reaches the decode step and fails with decodeFailure
                simp only [Commit.build, hst, hpr, hdec] at h
                have hie : (((first :: rest).filter validResponse).map
                    ProposalResponse.endorsement).isEmpty = false := by
                  rw [hq]; simp
                rw [hie] at h
                simp at h
              | some orig =>
                rw [Commit.build_valid st' e first rest orig hst hpr
                  ⟨a, hmema, hval⟩ hdec] at h
                exact Except.noConfusion h
      · intro h
        rw [Commit.build_no_responses st' e hst h]
    · intro h
      rw [Commit.build_no_valid st' e [] hst h (by intro r hr; exact absurd hr (List.not_mem_nil r))]
  rcases hre with rfl | ⟨rfl, hst⟩
  · rw [Commit.build_resolve]
    exact main _ rfl
  · exact main st hst

/-- C1 (amended) witness: a never-endorsed record (responses absent) fails
with `NotEndorsedError`; the same record with an empty responses array
fails with `NoValidEndorsementsError`. -/
theorem commit_build_notEndorsed_iff_responses_absent_witness :
    ((Commit.build { endorsement := none, payload := none, signature := none }
        (some { proposalResponses := none, action := sampleAction })).1 =
      Except.error FabricError.notEndorsed ↔
      (({ proposalResponses := none, action := sampleAction } : EndorsementRec)).proposalResponses = none) ∧
    ((({ proposalResponses := none, action := sampleAction } : EndorsementRec)).proposalResponses = some [] →
      (Commit.build { endorsement := none, payload := none, signature := none }
        (some { proposalResponses := none, action := sampleAction })).1 =
        Except.error FabricError.noValidEndorsements) :=
  commit_build_notEndorsed_iff_responses_absent
    { endorsement := none, payload := none, signature := none }
    (some { proposalResponses := none, action := sampleAction })
    { proposalResponses := none, action := sampleAction }
    (Or.inl rfl)

/-! ## C7 -/

/-- C7: an Endorsement Record with at least one collected response but only
non-success responses (no entry with `response.status === 200`) makes
`Commit.build` fail with `NoValidEndorsementsError`. -/
theorem commit_build_only_failures_noValid
    (st : CommitState) (req : Option EndorsementRec) (e : EndorsementRec)
    (l : List ProposalResponse)
    (hre : req = some e ∨ (req = none ∧ st.endorsement = some e))
    (hl : e.proposalResponses = some l) (_hne : l ≠ [])
    (hall : ∀ r ∈ l, validResponse r = false) :
    (Commit.build st req).1 = Except.error FabricError.noValidEndorsements := by
  rcases hre with rfl | ⟨rfl, hst⟩
  · rw [Commit.build_resolve, Commit.build_no_valid _ e l rfl hl hall]
  · rw [Commit.build_no_valid st e l hst hl hall]

/-- C7 witness: a record whose single collected response has status 500. -/
theorem commit_build_only_failures_noValid_witness :
    (Commit.build { endorsement := none, payload := none, signature := none }
        (some { proposalResponses := some [resp500], action := sampleAction })).1 =
      Except.error FabricError.noValidEndorsements :=
  commit_build_only_failures_noValid
    { endorsement := none, payload := none, signature := none }
    (some { proposalResponses := some [resp500], action := sampleAction })
    { proposalResponses := some [resp500], action := sampleAction }
    [resp500] (Or.inl rfl) rfl (by simp)
    (by intro r hr; rw [List.mem_singleton] at hr; subst hr; rfl)

/-! ## C10 -/

/-- C10: `Commit.build` calls `this._reset()` before filtering the
endorsements, so when it fails because no response has status 200, the
previously accumulated payload and signature (hence the signed envelope)
have already been discarded: the post-failure state is the cleared state.
(`_reset` lives on the `ServiceAction` base class outside `src/` and is
modelled from the spec as clearing the accumulated payload and signed
envelope.) -/
theorem commit_build_reset_precedes_filter
    (st : CommitState) (req : Option EndorsementRec) (e : EndorsementRec)
    (l : List ProposalResponse)
    (hre : req = some e ∨ (req = none ∧ st.endorsement = some e))
    (hl : e.proposalResponses = some l)
    (hall : ∀ r ∈ l, validResponse r = false) :
    (Commit.build st req).1 = Except.error FabricError.noValidEndorsements ∧
    ((Commit.build st req).2).payload = none ∧
    ((Commit.build st req).2).signature = none := by
  rcases hre with rfl | ⟨rfl, hst⟩
  · rw [Commit.build_resolve, Commit.build_no_valid _ e l rfl hl hall]
    exact ⟨rfl, rfl, rfl⟩
  · rw [Commit.build_no_valid st e l hst hl hall]
    exact ⟨rfl, rfl, rfl⟩

/-- A record whose only collected response has status 500. -/
def rec500 : EndorsementRec :=
  { proposalResponses := some [resp500], action := sampleAction }

/-- A commit state that has already built and signed against `rec500`:
payload and signature are both present. -/
def staleState : CommitState :=
  { endorsement := some rec500,
    payload := some (FBytes.raw [1]),
    signature := some [2] }

/-- C10 witness: an action that had already built and signed (payload and
signature present) loses both when `build` fails on a record whose only
response has status 500. -/
theorem commit_build_reset_precedes_filter_witness :
    (Commit.build staleState none).1 = Except.error FabricError.noValidEndorsements ∧
    ((Commit.build staleState none).2).payload = none ∧
    ((Commit.build staleState none).2).signature = none :=
  commit_build_reset_precedes_filter staleState none rec500
    [resp500] (Or.inr ⟨rfl, rfl⟩) rfl
    (by intro r hr; rw [List.mem_singleton] at hr; subst hr; rfl)

/-! ## C9 -/

/-- C9: on a signed action, `Commit.send` with a request carrying neither
`handler` nor `targets` throws `Error('Missing targets parameter')` and
contacts no committer (the contacted-committers trace is empty). -/
theorem commit_send_missing_targets
    (st : CommitState) (p : FBytes) (s : RawBytes)
    (hp : st.payload = some p) (hs : st.signature = some s) :
    Commit.send st { handler := none, targets := none } =
      (Except.error (FabricError.missingParameter "targets"), []) := by
  simp [Commit.send, CommitState.getSignedEnvelope, hp, hs]

/-- C9 witness: a concrete signed action. -/
theorem commit_send_missing_targets_witness :
    Commit.send { endorsement := none, payload := some (FBytes.raw [1]), signature := some [2] }
        { handler := none, targets := none } =
      (Except.error (FabricError.missingParameter "targets"), []) :=
  commit_send_missing_targets
    { endorsement := none, payload := some (FBytes.raw [1]), signature := some [2] }
    (FBytes.raw [1]) [2] rfl rfl

/-! ## C5, C6, C8: the assembled envelope payload -/

/-- The decoded chaincode proposal payload sitting at the fixed nesting
position of an assembled envelope payload (`none` when the buffer does not
have the shape `Commit.build` produces). -/
def embeddedProposalPayload : FBytes → Option ChaincodeProposalPayload
  | FBytes.encPayload (PayloadMsg.mk _ (FBytes.encTx (TransactionMsg.mk
      [TransactionAction.mk _ (FBytes.encCAP (ChaincodeActionPayload.mk _ cppBytes))]))) =>
    ChaincodeProposalPayload.decode cppBytes
  | _ => none

/-- The endorsement list sitting at the fixed nesting position of an
assembled envelope payload. -/
def embeddedEndorsements : FBytes → Option (List RawBytes)
  | FBytes.encPayload (PayloadMsg.mk _ (FBytes.encTx (TransactionMsg.mk
      [TransactionAction.mk _ (FBytes.encCAP (ChaincodeActionPayload.mk
        (ChaincodeEndorsedAction.mk _ ends) _))]))) => some ends
  | _ => none

/-- C5: on a record with at least one success-status response (and a
decodable original proposal payload), `Commit.build` sources the
proposal-response-payload from the *first* collected response (arrival
order, whether or not that response itself passed the filter) and the
header from the record's single captured original-proposal header, and
assembles, in order: endorsed-action (first response payload + filtered
endorsement list), chaincode-action-payload (endorsed-action + trimmed
proposal payload), transaction-action (original signature header +
chaincode-action-payload), a single-element transaction, and the final
payload = original header + serialized transaction. -/
theorem commit_build_assembly
    (st : CommitState) (req : Option EndorsementRec) (e : EndorsementRec)
    (first : ProposalResponse) (rest : List ProposalResponse)
    (orig : ChaincodeProposalPayload)
    (hre : req = some e ∨ (req = none ∧ st.endorsement = some e))
    (hl : e.proposalResponses = some (first :: rest))
    (hvalid : ∃ r, r ∈ first :: rest ∧ validResponse r = true)
    (hdec : ChaincodeProposalPayload.decode e.action.proposalPayload = some orig) :
    (Commit.build st req).1 =
      Except.ok (FBytes.encPayload (PayloadMsg.mk e.action.header
        (FBytes.encTx (TransactionMsg.mk
          [TransactionAction.mk (FBytes.raw e.action.header.signatureHeader)
            (FBytes.encCAP (ChaincodeActionPayload.mk
              (ChaincodeEndorsedAction.mk first.payload (endorsementsOf (first :: rest)))
              (FBytes.encCPP { input := orig.input, transientMap := none })))])))) := by
  rcases hre with rfl | ⟨rfl, hst⟩
  · rw [Commit.build_resolve, Commit.build_valid _ e first rest orig rfl hl hvalid hdec]
    rfl
  · rw [Commit.build_valid st e first rest orig hst hl hvalid hdec]
    rfl

/-- C6: the chaincode proposal payload embedded in the envelope payload
produced by `Commit.build` is the original proposal payload decoded and
re-encoded with only the public `input` field retained: its transient-data
subfield is absent. -/
theorem commit_build_strips_transient
    (st : CommitState) (req : Option EndorsementRec) (e : EndorsementRec)
    (first : ProposalResponse) (rest : List ProposalResponse)
    (orig : ChaincodeProposalPayload)
    (hre : req = some e ∨ (req = none ∧ st.endorsement = some e))
    (hl : e.proposalResponses = some (first :: rest))
    (hvalid : ∃ r, r ∈ first :: rest ∧ validResponse r = true)
    (hdec : ChaincodeProposalPayload.decode e.action.proposalPayload = some orig) :
    ∀ b, (Commit.build st req).1 = Except.ok b →
      embeddedProposalPayload b = some { input := orig.input, transientMap := none } ∧
      ∀ p, embeddedProposalPayload b = some p → p.transientMap = none := by
  intro b hb
  have hok := commit_build_assembly st req e first rest orig hre hl hvalid hdec
  rw [hb] at hok
  have hbe := Except.ok.inj hok
  subst hbe
  constructor
  · simp [embeddedProposalPayload, ChaincodeProposalPayload.decode]
  · intro p hp
    simp [embeddedProposalPayload, ChaincodeProposalPayload.decode] at hp
    rw [← hp]

/-- C8: the endorsement list placed into the envelope consists of exactly
the endorsement signature blobs of the responses whose status equals 200,
in arrival order. -/
theorem commit_build_endorsements_filtered
    (st : CommitState) (req : Option EndorsementRec) (e : EndorsementRec)
    (first : ProposalResponse) (rest : List ProposalResponse)
    (orig : ChaincodeProposalPayload)
    (hre : req = some e ∨ (req = none ∧ st.endorsement = some e))
    (hl : e.proposalResponses = some (first :: rest))
    (hvalid : ∃ r, r ∈ first :: rest ∧ validResponse r = true)
    (hdec : ChaincodeProposalPayload.decode e.action.proposalPayload = some orig) :
    ∀ b, (Commit.build st req).1 = Except.ok b →
      embeddedEndorsements b =
        some (((first :: rest).filter validResponse).map ProposalResponse.endorsement) := by
  intro b hb
  have hok := commit_build_assembly st req e first rest orig hre hl hvalid hdec
  rw [hb] at hok
  have hbe := Except.ok.inj hok
  subst hbe
  simp [embeddedEndorsements, endorsementsOf]

/-- The two-response record of the 200/500 scenario: first response
accepted with status 200, second rejected with status 500. -/
def rec2 : EndorsementRec :=
  { proposalResponses := some [resp200, resp500], action := sampleAction }

/-- A fresh commit state holding `rec2`. -/
def st2 : CommitState :=
  { endorsement := some rec2, payload := none, signature := none }

/-- The envelope payload `Commit.build` assembles for `st2`: sourced from
the first response, carrying only the endorsement blob of the status-200
response and the transient-free proposal payload. -/
def builtSample : FBytes :=
  FBytes.encPayload (PayloadMsg.mk sampleHeader (FBytes.encTx (TransactionMsg.mk
    [TransactionAction.mk (FBytes.raw [3, 4])
      (FBytes.encCAP (ChaincodeActionPayload.mk
        (ChaincodeEndorsedAction.mk (FBytes.raw [5]) [[10]])
        (FBytes.encCPP { input := some [9, 9], transientMap := none })))])))

/-- C5 witness: on the concrete 200/500 record the assembled payload is
exactly `builtSample`. -/
theorem commit_build_assembly_witness :
    (Commit.build st2 none).1 = Except.ok builtSample :=
  commit_build_assembly st2 none rec2 resp200 [resp500] sampleCPP
    (Or.inr ⟨rfl, rfl⟩) rfl ⟨resp200, List.mem_cons_self resp200 [resp500], rfl⟩ rfl

/-- C6 witness: the payload built from the concrete 200/500 record embeds
the original input `[9, 9]` and no transient data, although the original
proposal payload carried a transient map. -/
theorem commit_build_strips_transient_witness :
    embeddedProposalPayload builtSample =
      some { input := some [9, 9], transientMap := none } ∧
    ∀ p, embeddedProposalPayload builtSample = some p → p.transientMap = none :=
  commit_build_strips_transient st2 none rec2 resp200 [resp500] sampleCPP
    (Or.inr ⟨rfl, rfl⟩) rfl ⟨resp200, List.mem_cons_self resp200 [resp500], rfl⟩ rfl
    builtSample rfl

/-- C8 witness, the 200/500 scenario: the embedded endorsement list has
length 1 and is exactly the blob of the status-200 response. -/
theorem commit_build_endorsements_filtered_witness :
    embeddedEndorsements builtSample = some [resp200.endorsement] :=
  commit_build_endorsements_filtered st2 none rec2 resp200 [resp500] sampleCPP
    (Or.inr ⟨rfl, rfl⟩) rfl ⟨resp200, List.mem_cons_self resp200 [resp500], rfl⟩ rfl
    builtSample rfl

/-! ## C2, C3, C4: the broadcast fallback policy -/

/-- `getLast?.getD` steps over a cons: the old default is displaced by the
new head. -/
theorem getLast_getD_cons {α : Type} (r : α) (rs : List α) (bad : α) :
    ((r :: rs).getLast?.getD bad) = rs.getLast?.getD r := by
  cases rs with
  | nil => rfl
  | cons a as => rw [List.getLast?_cons_cons]; cases h : (a :: as).getLast? with
    | none => exact absurd h (by simp)
    | some x => rfl

/-- The broadcast loop when every committer returns a non-success result:
the last returned result wins (the initial `bad_result` survives only an
empty list), and every committer is contacted, in the given order. -/
theorem sendLoop_all_fail (committers : List Committer) (rs : List BroadcastResult)
    (bad : BroadcastResult)
    (hmap : committers.map Committer.sendBroadcast = rs.map Except.ok)
    (hfail : ∀ r ∈ rs, r.status ≠ "SUCCESS") :
    sendLoop committers bad = (Except.ok (rs.getLast?.getD bad), committers) := by
  induction committers generalizing rs bad with
  | nil =>
    cases rs with
    | nil => simp [sendLoop]
    | cons r rs' => simp at hmap
  | cons c cs ih =>
    cases rs with
    | nil => simp at hmap
    | cons r rs' =>
      simp only [List.map_cons, List.cons.injEq] at hmap
      obtain ⟨hc, hrest⟩ := hmap
      have hrfail : ¬(r.status = "SUCCESS") := hfail r (List.mem_cons_self _ _)
      rw [getLast_getD_cons]
      simp only [sendLoop, hc, if_neg hrfail]
      rw [ih rs' r hrest (fun y hy => hfail y (List.mem_cons_of_mem _ hy))]

/-- The broadcast loop when a prefix fails (with returned results) and
then a committer returns `SUCCESS`: that result is returned at once, the
suffix is never contacted. -/
theorem sendLoop_first_success (pre : List Committer) (rs : List BroadcastResult)
    (c : Committer) (post : List Committer) (r : BroadcastResult) (bad : BroadcastResult)
    (hmap : pre.map Committer.sendBroadcast = rs.map Except.ok)
    (hfail : ∀ x ∈ rs, x.status ≠ "SUCCESS")
    (hc : c.sendBroadcast = Except.ok r) (hr : r.status = "SUCCESS") :
    sendLoop (pre ++ c :: post) bad = (Except.ok r, pre ++ [c]) := by
  induction pre generalizing rs bad with
  | nil => simp [sendLoop, hc, hr]
  | cons a as ih =>
    cases rs with
    | nil => simp at hmap
    | cons x xs =>
      simp only [List.map_cons, List.cons.injEq] at hmap
      obtain ⟨ha, hrest⟩ := hmap
      have hxfail : ¬(x.status = "SUCCESS") := hfail x (List.mem_cons_self _ _)
      simp only [List.cons_append, sendLoop, ha, if_neg hxfail, List.append_eq]
      rw [ih xs x hrest (fun y hy => hfail y (List.mem_cons_of_mem _ hy))]

/-- The broadcast loop when a prefix fails (with returned results) and
then a committer's `sendBroadcast` raises: the transport error propagates
(the source has no `try`/`catch`), the suffix is never contacted. -/
theorem sendLoop_transport (pre : List Committer) (rs : List BroadcastResult)
    (c : Committer) (post : List Committer) (err : String) (bad : BroadcastResult)
    (hmap : pre.map Committer.sendBroadcast = rs.map Except.ok)
    (hfail : ∀ x ∈ rs, x.status ≠ "SUCCESS")
    (hc : c.sendBroadcast = Except.error err) :
    sendLoop (pre ++ c :: post) bad =
      (Except.error (FabricError.transport err), pre ++ [c]) := by
  induction pre generalizing rs bad with
  | nil => simp [sendLoop, hc]
  | cons a as ih =>
    cases rs with
    | nil => simp at hmap
    | cons x xs =>
      simp only [List.map_cons, List.cons.injEq] at hmap
      obtain ⟨ha, hrest⟩ := hmap
      have hxfail : ¬(x.status = "SUCCESS") := hfail x (List.mem_cons_self _ _)
      simp only [List.cons_append, sendLoop, ha, if_neg hxfail, List.append_eq]
      rw [ih xs x hrest (fun y hy => hfail y (List.mem_cons_of_mem _ hy))]

/-- A signed commit state ready for `send`. -/
def signedState : CommitState :=
  { endorsement := none, payload := some (FBytes.raw [1]), signature := some [2] }

/-- A committer whose node-reported outcome carries status `UNKNOWN`. -/
def cUnknown : Committer :=
  { sendBroadcast := Except.ok { status := "UNKNOWN", message := some "m1" } }

/-- Committers reporting `FAILED` with messages `m1`, `m2`, `m3`. -/
def cFail1 : Committer :=
  { sendBroadcast := Except.ok { status := "FAILED", message := some "m1" } }

/-- Second `FAILED` committer of the scenario. -/
def cFail2 : Committer :=
  { sendBroadcast := Except.ok { status := "FAILED", message := some "m2" } }

/-- Third `FAILED` committer of the scenario. -/
def cFail3 : Committer :=
  { sendBroadcast := Except.ok { status := "FAILED", message := some "m3" } }

/-- A committer reporting `SUCCESS`. -/
def cSuccess : Committer :=
  { sendBroadcast := Except.ok { status := "SUCCESS", message := some "ok" } }

/-- A committer whose `sendBroadcast` raises a transport error. -/
def cRaise : Committer :=
  { sendBroadcast := Except.error "ECONNREFUSED" }

/-! ## C2 -/

/-- C2, counterexample: a single resolved target whose node-reported
outcome has status `UNKNOWN` (not `SUCCESS`) makes `Commit.send` return an
outcome with status `UNKNOWN` although the resolved targets list is
non-empty — "status `UNKNOWN` only when the resolved targets list is
empty" fails. -/
theorem commit_send_unknown_with_nonempty_targets :
    (Commit.send signedState { handler := none, targets := some [cUnknown] }).1 =
      Except.ok { status := "UNKNOWN", message := some "m1" } ∧
    getTargetCommitters [cUnknown] ≠ [] ∧
    ("UNKNOWN" : String) ≠ "SUCCESS" :=
  ⟨rfl, by simp [getTargetCommitters], by decide⟩

/-- C2 (amended): when every resolved target returns a non-success
outcome, `Commit.send` returns the outcome of the last target attempted
(last failure wins); the initial `bad_result` (status `UNKNOWN`, no
message) is returned only in the sense that it survives exactly an empty
resolved-targets list — the single equation covers both cases via
`getLast?.getD`.  A returned `UNKNOWN` status does not imply the list was
empty, since a target may itself report `UNKNOWN`. -/
theorem commit_send_last_failure
    (st : CommitState) (p : FBytes) (s : RawBytes)
    (hp : st.payload = some p) (hs : st.signature = some s)
    (targets : List Committer) (rs : List BroadcastResult)
    (hmap : targets.map Committer.sendBroadcast = rs.map Except.ok)
    (hfail : ∀ r ∈ rs, r.status ≠ "SUCCESS") :
    Commit.send st { handler := none, targets := some targets } =
      (Except.ok (rs.getLast?.getD { status := "UNKNOWN", message := none }), targets) := by
  simp only [Commit.send, CommitState.getSignedEnvelope, hp, hs, getTargetCommitters]
  exact sendLoop_all_fail targets rs _ hmap hfail

/-- C2 (amended) witness, the all-fail scenario: three committers
reporting `FAILED` with messages `m1`, `m2`, `m3` → `send` returns the
outcome carrying `m3` and contacts all three, in order; and on an empty
target list `send` returns the initial `bad_result`. -/
theorem commit_send_last_failure_witness :
    Commit.send signedState { handler := none, targets := some [cFail1, cFail2, cFail3] } =
      (Except.ok { status := "FAILED", message := some "m3" }, [cFail1, cFail2, cFail3]) ∧
    Commit.send signedState { handler := none, targets := some [] } =
      (Except.ok { status := "UNKNOWN", message := none }, []) :=
  ⟨commit_send_last_failure signedState (FBytes.raw [1]) [2] rfl rfl
      [cFail1, cFail2, cFail3]
      [{ status := "FAILED", message := some "m1" },
       { status := "FAILED", message := some "m2" },
       { status := "FAILED", message := some "m3" }]
      rfl
      (by
        intro r hr
        simp only [List.mem_cons, List.not_mem_nil, or_false] at hr
        rcases hr with rfl | rfl | rfl <;> decide),
   commit_send_last_failure signedState (FBytes.raw [1]) [2] rfl rfl [] [] rfl
      (by intro r hr; exact absurd hr (List.not_mem_nil r))⟩

/-! ## C4 -/

/-- C4: when `tk` is the first target whose returned outcome has status
`SUCCESS` (every earlier target returned a non-success outcome),
`Commit.send` returns exactly `tk`'s outcome, contacts the targets
strictly in the caller-given order, and never contacts the targets after
`tk` — the contacted trace is exactly the prefix up to and including
`tk`. -/
theorem commit_send_first_success
    (st : CommitState) (p : FBytes) (s : RawBytes)
    (hp : st.payload = some p) (hs : st.signature = some s)
    (pre post : List Committer) (c : Committer)
    (rs : List BroadcastResult) (r : BroadcastResult)
    (hmap : pre.map Committer.sendBroadcast = rs.map Except.ok)
    (hfail : ∀ x ∈ rs, x.status ≠ "SUCCESS")
    (hc : c.sendBroadcast = Except.ok r) (hr : r.status = "SUCCESS") :
    Commit.send st { handler := none, targets := some (pre ++ c :: post) } =
      (Except.ok r, pre ++ [c]) := by
  simp only [Commit.send, CommitState.getSignedEnvelope, hp, hs, getTargetCommitters]
  exact sendLoop_first_success pre rs c post r _ hmap hfail hc hr

/-- C4 witness, the `FAILED, FAILED, SUCCESS` scenario: `send` returns the
`SUCCESS` outcome after exactly 3 attempts, and a fourth target is never
contacted. -/
theorem commit_send_first_success_witness :
    Commit.send signedState
        { handler := none, targets := some [cFail1, cFail2, cSuccess, cRaise] } =
      (Except.ok { status := "SUCCESS", message := some "ok" }, [cFail1, cFail2, cSuccess]) :=
  commit_send_first_success signedState (FBytes.raw [1]) [2] rfl rfl
    [cFail1, cFail2] [cRaise] cSuccess
    [{ status := "FAILED", message := some "m1" },
     { status := "FAILED", message := some "m2" }]
    { status := "SUCCESS", message := some "ok" }
    rfl
    (by
      intro r hr
      simp only [List.mem_cons, List.not_mem_nil, or_false] at hr
      rcases hr with rfl | rfl <;> decide)
    rfl rfl

/-! ## C3 -/

/-- C3, counterexample: a transport error raised by a target's
`sendBroadcast` is *not* caught by `Commit.send` — with `handler`/`targets`
present and valid, `send` raises the transport error instead of converting
it into a non-success outcome. -/
theorem commit_send_transport_error_raises :
    (Commit.send signedState { handler := none, targets := some [cRaise] }).1 =
      Except.error (FabricError.transport "ECONNREFUSED") ∧
    getTargetCommitters [cRaise] ≠ [] :=
  ⟨rfl, by simp [getTargetCommitters]⟩

/-- C3 (amended): a non-success outcome *returned* by a target is folded
into the fallback logic, but a transport error *raised* by a target's
`sendBroadcast` is not caught: it propagates out of `Commit.send`,
aborting the loop — the targets after the raising one are never
contacted. -/
theorem commit_send_transport_error_propagates
    (st : CommitState) (p : FBytes) (s : RawBytes)
    (hp : st.payload = some p) (hs : st.signature = some s)
    (pre post : List Committer) (c : Committer)
    (rs : List BroadcastResult) (err : String)
    (hmap : pre.map Committer.sendBroadcast = rs.map Except.ok)
    (hfail : ∀ x ∈ rs, x.status ≠ "SUCCESS")
    (hc : c.sendBroadcast = Except.error err) :
    Commit.send st { handler := none, targets := some (pre ++ c :: post) } =
      (Except.error (FabricError.transport err), pre ++ [c]) := by
  simp only [Commit.send, CommitState.getSignedEnvelope, hp, hs, getTargetCommitters]
  exact sendLoop_transport pre rs c post err _ hmap hfail hc

/-- C3 (amended) witness: after one `FAILED` target, a raising target makes
`send` propagate the transport error; a third target is never contacted. -/
theorem commit_send_transport_error_propagates_witness :
    Commit.send signedState
        { handler := none, targets := some [cFail1, cRaise, cFail3] } =
      (Except.error (FabricError.transport "ECONNREFUSED"), [cFail1, cRaise]) :=
  commit_send_transport_error_propagates signedState (FBytes.raw [1]) [2] rfl rfl
    [cFail1] [cFail3] cRaise
    [{ status := "FAILED", message := some "m1" }] "ECONNREFUSED"
    rfl
    (by
      intro r hr
      simp only [List.mem_singleton] at hr
      subst hr
      decide)
    rfl
